import Mathlib

/-
Verification of the QuickBooks migration connector
(qb_connect/quickbooks_connector/quickbooks_migrator.py).

Shallow embedding: the relevant Python functions are translated into
executable Lean definitions.  Monetary amounts (produced by
frappe.utils.flt) are modelled as rationals, JSON dictionaries as
structures with Option-valued fields for keys that may be absent, and
Python dicts used as insertion-ordered maps as association lists where
a new key is appended at the end (CPython dict semantics).
-/

set_option autoImplicit false

namespace QBConnect

/-! ### Entity fetcher pagination (_migrate_entries, lines 227-254)

The code issues a count query, then fetches pages with
range(1, entry_count + 1, max_result_count) and MAXRESULTS 1000,
concatenating the pages with entries.extend(...). -/

/-- Constant max_result_count = 1000 from _migrate_entries. -/
def max_result_count : Nat := 1000

/-- Start positions issued by the pagination loop:
Python range(1, entry_count + 1, 1000) as a list.
The element count of that range is ceil(entry_count / 1000). -/
def pagePositions (entry_count : Nat) : List Nat :=
  List.range' 1 ((entry_count + (max_result_count - 1)) / max_result_count) max_result_count

/-- The window of source records returned for query
SELECT * ... STARTPOSITION start MAXRESULTS 1000, positions being 1-based. -/
def fetchPage {α : Type} (records : List α) (start_position : Nat) : List α :=
  (records.drop (start_position - 1)).take max_result_count

/-- The pages fetched by the loop in _migrate_entries, in loop order. -/
def fetchAllPages {α : Type} (records : List α) : List (List α) :=
  (pagePositions records.length).map (fetchPage records)

/-! ### Token refresh-and-retry (_get lines 1396-1408, _post lines 1410-1425)

Both wrappers behave identically: perform the request; if the HTTP
status is 401, call _refresh_tokens and then recursively call
themselves on the same arguments.  We model the network as the list of
statuses the server would answer to the successive attempts, and
return (number of refresh calls, final status); none models the case
where every listed attempt kept answering 401 (the recursion would
only stop when the server stops answering 401). -/

def requestWithRefresh : List Nat → Option (Nat × Nat)
  | [] => none
  | status :: rest =>
    if status = 401 then
      (requestWithRefresh rest).map (fun r => (r.1 + 1, r.2))
    else
      some (0, status)

/-! ### Ledger lines, reconstructed entries and journal-entry synthesis

A ledger line is one row extracted from the General Ledger report by
_get_gl_entries_from_section (lines 378-412): account context, then
date = ColData[0].value, type = ColData[1].value, id = ColData[1].id,
credit = flt(ColData[2].value), debit = flt(ColData[3].value).
The account context may be None (sections with no usable header). -/

structure LedgerLine where
  account : Option String
  date : String
  type : String
  id : Option String
  credit : ℚ
  debit : ℚ
deriving DecidableEq

/-- Reconstructed entry of self.general_ledger[type][id]
(_fetch_general_ledger lines 273-284). -/
structure GLEntry where
  id : Option String
  date : String
  lines : List LedgerLine
deriving DecidableEq

/-- One element of the accounts child table handed to a Journal Entry
document.  Keys absent from the Python dict are modelled as none. -/
structure JEAccountLine where
  account : Option String
  cost_center : Option String
  credit_in_account_currency : Option ℚ
  debit_in_account_currency : Option ℚ
  party_type : Option String
  party : Option String
  reference_type : Option String
  reference_name : Option String
deriving DecidableEq

/-- Line translation of __save_ledger_entry_as_je (lines 1303-1310):
account_line carries the credit amount when line["credit"] is truthy
(that is, non-zero), and the debit amount otherwise. -/
def ledgerLineToAccount (default_cost_center : Option String) (line : LedgerLine) :
    JEAccountLine :=
  if line.credit ≠ 0 then
    { account := line.account, cost_center := default_cost_center,
      credit_in_account_currency := some line.credit, debit_in_account_currency := none,
      party_type := none, party := none, reference_type := none, reference_name := none }
  else
    { account := line.account, cost_center := default_cost_center,
      credit_in_account_currency := none, debit_in_account_currency := some line.debit,
      party_type := none, party := none, reference_type := none, reference_name := none }

/-- Accounts list built by __save_ledger_entry_as_je: one posting line per
ledger line, in order, and nothing else. -/
def ledgerEntryAccounts (default_cost_center : Option String) (entry : GLEntry) :
    List JEAccountLine :=
  entry.lines.map (ledgerLineToAccount default_cost_center)

/-- Python str formatting of a possibly-absent id ("{}".format(None) is "None"). -/
def formatOptId : Option String → String
  | none => "None"
  | some s => s

/-- A persisted Journal Entry document. -/
structure JEDoc where
  quickbooks_id : String
  accounts : List JEAccountLine
  posting_date : String
deriving DecidableEq

/-- Embedding of __save_journal_entry (lines 889-908): insert the document
only when no Journal Entry with this quickbooks_id exists. -/
def save_journal_entry_doc (qbid : String) (accounts : List JEAccountLine)
    (posting_date : String) (db : List JEDoc) : List JEDoc :=
  if db.any (fun je => je.quickbooks_id == qbid) then db
  else db ++ [{ quickbooks_id := qbid, accounts := accounts, posting_date := posting_date }]

/-- Embedding of __save_ledger_entry_as_je (lines 1300-1315). -/
def save_ledger_entry_as_je (default_cost_center : Option String) (entry : GLEntry)
    (qbid : String) (db : List JEDoc) : List JEDoc :=
  save_journal_entry_doc qbid (ledgerEntryAccounts default_cost_center entry) entry.date db

/-- Embedding of _save_advance_payment (lines 1287-1289). -/
def save_advance_payment (default_cost_center : Option String) (entry : GLEntry)
    (db : List JEDoc) : List JEDoc :=
  save_ledger_entry_as_je default_cost_center entry
    ("Advance Payment - " ++ formatOptId entry.id) db

/-- Embedding of _save_tax_payment (lines 1291-1293). -/
def save_tax_payment (default_cost_center : Option String) (entry : GLEntry)
    (db : List JEDoc) : List JEDoc :=
  save_ledger_entry_as_je default_cost_center entry
    ("Tax Payment - " ++ formatOptId entry.id) db

/-- Embedding of _save_inventory_qty_adjust (lines 1295-1298). -/
def save_inventory_qty_adjust (default_cost_center : Option String) (entry : GLEntry)
    (db : List JEDoc) : List JEDoc :=
  save_ledger_entry_as_je default_cost_center entry
    ("Inventory Qty Adjust - " ++ formatOptId entry.id) db

/-- Total of the debit sides of a journal-entry accounts list. -/
def sumDebits (accs : List JEAccountLine) : ℚ :=
  (accs.map (fun a => a.debit_in_account_currency.getD 0)).sum

/-- Total of the credit sides of a journal-entry accounts list. -/
def sumCredits (accs : List JEAccountLine) : ℚ :=
  (accs.map (fun a => a.credit_in_account_currency.getD 0)).sum

/-! ### General Ledger report walk (_get_gl_entries_from_section, lines 378-412)

The report is a tree of Section rows and Data rows.  A Section may have a
Header whose first ColData cell carries an account id or an account
display name; Data rows carry the five columns read by the code.  The
string-to-float parsing of the two amount columns (frappe.utils.flt) is
modelled by carrying the parsed rationals in the cell. -/

/-- First Header ColData cell of a section: optional id key, optional value key. -/
structure ColCell where
  id : Option String
  value : Option String
deriving DecidableEq

/-- Columns of a Data row: ColData[0].value, ColData[1].value, ColData[1].id,
flt(ColData[2].value), flt(ColData[3].value). -/
structure GLDataRow where
  date : String
  txnType : String
  txnId : Option String
  credit : ℚ
  debit : ℚ
deriving DecidableEq

/-- A row of the report tree: discriminator "Data" or "Section"; a Section
carries an optional Header (first ColData cell) and its nested Rows.Row list. -/
inductive ReportRow where
  | data (d : GLDataRow) : ReportRow
  | sec (header : Option ColCell) (rows : List ReportRow) : ReportRow

/-- Account resolution context: _get_account_name_by_id and the
name-to-source-record index self.accounts built by _preprocess_accounts
(self.accounts[name]["Id"]); both are total lookups here, matching the
code path where the referenced accounts were imported. -/
structure AccountEnv where
  nameById : String → String
  accountIdByName : String → String

/-- The ledger line appended for a Data row under the current account context. -/
def mkLedgerLine (account : Option String) (d : GLDataRow) : LedgerLine :=
  { account := account, date := d.date, type := d.txnType, id := d.txnId,
    credit := d.credit, debit := d.debit }

/-- The state self.gl_entries: a Python dict keyed by account (possibly None),
modelled as an insertion-ordered association list. -/
abbrev GLState := List (Option String × List LedgerLine)

/-- Python dict write d[k] = f(d.get(k)): update in place when the key
exists, append the key at the end otherwise. -/
def dictUpsert {κ β : Type} [DecidableEq κ] (k : κ) (f : Option β → β) :
    List (κ × β) → List (κ × β)
  | [] => [(k, f none)]
  | (k0, v) :: rest =>
    if k0 = k then (k0, f (some v)) :: rest else (k0, v) :: dictUpsert k f rest

/-- Python dict read d.get(k). -/
def dictFind {κ β : Type} [DecidableEq κ] (k : κ) : List (κ × β) → Option β
  | [] => none
  | (k0, v) :: rest => if k0 = k then some v else dictFind k rest

/-- Embedding of self.gl_entries.setdefault(account, []).extend(entries). -/
def extendGLEntries (st : GLState) (account : Option String) (es : List LedgerLine) :
    GLState :=
  dictUpsert account (fun cur => cur.getD [] ++ es) st

/-- Header handling at the top of _get_gl_entries_from_section: a header cell
with an id resolves the account by id; otherwise a truthy value resolves it
through self.accounts by display name, except the value "Not Specified",
which makes the function return before touching gl_entries (modelled by the
none result); no header, or an empty cell, keeps the inherited account. -/
def resolveAccount (env : AccountEnv) (header : Option ColCell)
    (account : Option String) : Option (Option String) :=
  match header with
  | none => some account
  | some cell =>
    match cell.id with
    | some i => some (some (env.nameById i))
    | none =>
      match cell.value with
      | some v =>
        if v ≠ "" then
          if v = "Not Specified" then none
          else some (some (env.nameById (env.accountIdByName v)))
        else some account
      | none => some account

mutual
/-- Loop body of _get_gl_entries_from_section over section["Rows"]["Row"]:
Data rows are appended to the local entries list; nested Section rows are
recursed into immediately, updating gl_entries, before the enclosing
section appends its own entries. -/
def get_gl_entries_rows (env : AccountEnv) (account : Option String) :
    List ReportRow → List LedgerLine × GLState → List LedgerLine × GLState
  | [], acc => acc
  | ReportRow.data d :: rest, (es, st) =>
      get_gl_entries_rows env account rest (es ++ [mkLedgerLine account d], st)
  | ReportRow.sec h rs :: rest, (es, st) =>
      get_gl_entries_rows env account rest
        (es, get_gl_entries_from_section env h rs account st)

/-- Embedding of _get_gl_entries_from_section (lines 378-412): resolve the
account context from the header, walk the rows, then extend
gl_entries[account] with the Data rows collected at this level. -/
def get_gl_entries_from_section (env : AccountEnv) (header : Option ColCell)
    (rows : List ReportRow) (account : Option String) (st : GLState) : GLState :=
  match resolveAccount env header account with
  | none => st
  | some acct =>
    let p := get_gl_entries_rows env acct rows ([], st)
    extendGLEntries p.2 acct p.1
end

/-- Top loop of _fetch_general_ledger (lines 269-272): process every
top-level row whose type is "Section", starting from an empty dict and a
None account context. -/
def fetch_gl_entries (env : AccountEnv) (top : List ReportRow) : GLState :=
  top.foldl
    (fun st row =>
      match row with
      | ReportRow.sec h rs => get_gl_entries_from_section env h rs none st
      | ReportRow.data _ => st)
    []

/-- Iteration order of the grouping loop (lines 274-284): for account in
self.gl_entries.values(): for line in account. -/
def flattenGLEntries (st : GLState) : List LedgerLine :=
  (st.map Prod.snd).flatten

/-- The nested dict self.general_ledger[type][id]. -/
abbrev GeneralLedger := List (String × List (Option String × GLEntry))

/-- Grouping step of _fetch_general_ledger for one line: setdefault on the
transaction type, create the entry keyed by line id on first sight (with
that line's id and date), then append the line. -/
def addLineToGL (gl : GeneralLedger) (line : LedgerLine) : GeneralLedger :=
  dictUpsert line.type
    (fun td? =>
      dictUpsert line.id
        (fun e? =>
          match e? with
          | none => { id := line.id, date := line.date, lines := [line] }
          | some e => { e with lines := e.lines ++ [line] })
        (td?.getD []))
    gl

/-- The grouping loop of _fetch_general_ledger over the flattened lines. -/
def build_general_ledger (ls : List LedgerLine) : GeneralLedger :=
  ls.foldl addLineToGL []

/-- Embedding of _fetch_general_ledger (lines 256-284): walk the report
tree into gl_entries, then regroup by type and id. -/
def fetch_general_ledger (env : AccountEnv) (top : List ReportRow) : GeneralLedger :=
  build_general_ledger (flattenGLEntries (fetch_gl_entries env top))

/-- Lookup self.general_ledger[t][i]. -/
def findEntry (gl : GeneralLedger) (t : String) (i : Option String) : Option GLEntry :=
  (dictFind t gl).bind (dictFind i)

/-- Line list of the entry at [t][i], empty when absent. -/
def entryLines (gl : GeneralLedger) (t : String) (i : Option String) : List LedgerLine :=
  ((findEntry gl t i).map GLEntry.lines).getD []

mutual
/-- Modelled from the spec wording of claim C2 (not from the code): the
ledger lines in the order in which Data rows are encountered during the
recursive walk of the report tree, document order, rows of nested
sub-sections at their position in the walk, with the same account
resolution and the same skipping of Not Specified sections. -/
def specDocOrderRows (env : AccountEnv) (account : Option String) :
    List ReportRow → List LedgerLine
  | [] => []
  | ReportRow.data d :: rest => mkLedgerLine account d :: specDocOrderRows env account rest
  | ReportRow.sec h rs :: rest =>
      specDocOrderSection env h rs account ++ specDocOrderRows env account rest

/-- Companion of specDocOrderRows for one section. -/
def specDocOrderSection (env : AccountEnv) (header : Option ColCell)
    (rows : List ReportRow) (account : Option String) : List LedgerLine :=
  match resolveAccount env header account with
  | none => []
  | some acct => specDocOrderRows env acct rows
end

/-- Document-order lines of a whole report, per the spec wording of C2. -/
def specDocOrderLines (env : AccountEnv) (top : List ReportRow) : List LedgerLine :=
  top.foldl
    (fun acc row =>
      match row with
      | ReportRow.sec h rs => acc ++ specDocOrderSection env h rs none
      | ReportRow.data _ => acc)
    []

/-- Environment for the concrete report trees below: identity lookups. -/
def glExampleEnv : AccountEnv :=
  { nameById := fun s => s, accountIdByName := fun s => s }

/-- Concrete report: one section for account A whose rows are a Data row r1
followed by a headerless sub-section holding a Data row r2, both rows
belonging to the same transaction Invoice 1. -/
def interleavedReport : List ReportRow :=
  [ ReportRow.sec (some { id := some "A", value := none })
      [ ReportRow.data
          { date := "2020-01-01", txnType := "Invoice", txnId := some "1",
            credit := 0, debit := 7 },
        ReportRow.sec none
          [ ReportRow.data
              { date := "2020-01-01", txnType := "Invoice", txnId := some "1",
                credit := 7, debit := 0 } ] ] ]

/-! ### Fiscal year extension (_create_fiscal_years, lines 288-322)

The loop reads the smallest non-empty ledger line date, then, while that
date is before the oldest fiscal year start, creates a fiscal year one
calendar year earlier (frappe add_years, that is dateutil relativedelta
year arithmetic with day clamping) and continues from it.  Any exception
inside the try block, in particular the ValueError of min() on an empty
sequence, is caught and only logged, leaving the database untouched. -/

/-- A calendar date as in Python datetime.date. -/
structure QDate where
  year : Int
  month : Nat
  day : Nat
deriving DecidableEq

/-- Gregorian leap year test. -/
def isLeapYear (y : Int) : Bool :=
  decide ((y % 4 = 0 ∧ ¬ y % 100 = 0) ∨ y % 400 = 0)

/-- Number of days of month m in year y. -/
def daysInMonth (y : Int) (m : Nat) : Nat :=
  if m = 2 then (if isLeapYear y then 29 else 28)
  else if m = 4 ∨ m = 6 ∨ m = 9 ∨ m = 11 then 30
  else 31

/-- A structurally valid calendar date. -/
def QDate.Valid (d : QDate) : Prop :=
  1 ≤ d.month ∧ d.month ≤ 12 ∧ 1 ≤ d.day ∧ d.day ≤ daysInMonth d.year d.month

instance decidableQDateValid (d : QDate) : Decidable d.Valid := by
  unfold QDate.Valid
  infer_instance

/-- Date comparison, as Python compares datetime.date values. -/
def QDate.Lt (a b : QDate) : Prop :=
  a.year < b.year
  ∨ (a.year = b.year ∧ (a.month < b.month ∨ (a.month = b.month ∧ a.day < b.day)))

instance decidableQDateLt (a b : QDate) : Decidable (QDate.Lt a b) := by
  unfold QDate.Lt
  infer_instance

/-- frappe add_years via dateutil relativedelta: shift the year and clamp
the day to the length of the (same) month in the target year. -/
def add_years (d : QDate) (years : Int) : QDate :=
  { year := d.year + years, month := d.month,
    day := min d.day (daysInMonth (d.year + years) d.month) }

/-- The while loop of _create_fiscal_years: given the smallest ledger date
and the oldest fiscal year [s, e], repeatedly create the fiscal year one
calendar year earlier until the smallest date is no longer smaller than
the oldest start date.  Returns the created years in creation order. -/
def create_fiscal_years (dmin s e : QDate) : List (QDate × QDate) :=
  if QDate.Lt dmin s then
    (add_years s (-1), add_years e (-1))
      :: create_fiscal_years dmin (add_years s (-1)) (add_years e (-1))
  else []
termination_by (s.year + 1 - dmin.year).toNat
decreasing_by
  rename_i h
  have hy : dmin.year ≤ s.year := by
    unfold QDate.Lt at h
    omega
  simp only [add_years]
  omega

/-- The fiscal year table after the loop: new_fiscal_year.save() only ever
inserts, so the run appends the created years to the existing table. -/
def extend_fiscal_years (db : List (QDate × QDate)) (dmin s e : QDate) :
    List (QDate × QDate) :=
  db ++ create_fiscal_years dmin s e

/-- Python min over a list of strings (lexicographic); none models the
ValueError raised on an empty sequence. -/
def string_min : List String → Option String :=
  List.foldl
    (fun acc s =>
      match acc with
      | none => some s
      | some m => some (if s < m then s else m))
    none

/-- The generator min(entry["date"] for entry in chain(*gl_entries.values())
if entry["date"]): smallest truthy date over all ledger lines. -/
def smallest_ledger_entry_date (glLines : List LedgerLine) : Option String :=
  string_min ((glLines.filter (fun l => decide (¬ l.date = ""))).map LedgerLine.date)

/-- frappe getdate on an ISO yyyy-mm-dd string. -/
def parse_date (s : String) : QDate :=
  match s.splitOn "-" with
  | [y, m, d] => { year := y.toInt?.getD 0, month := m.toNat?.getD 0, day := d.toNat?.getD 0 }
  | _ => { year := 0, month := 0, day := 0 }

/-- frappe.get_all("Fiscal Year", ..., order_by="year_start_date")[0]:
the row with the smallest start date, none when the table is empty (the
IndexError is caught by the surrounding except). -/
def oldest_fiscal_year : List (QDate × QDate) → Option (QDate × QDate)
  | [] => none
  | fy :: rest =>
    match oldest_fiscal_year rest with
    | none => some fy
    | some best => some (if QDate.Lt best.1 fy.1 then best else fy)

/-- The whole body of _create_fiscal_years as a database transform: when no
ledger line has a truthy date, min() raises and the except leaves the
table unchanged; otherwise run the creation loop from the oldest year. -/
def create_fiscal_years_step (glLines : List LedgerLine)
    (db : List (QDate × QDate)) : List (QDate × QDate) :=
  match smallest_ledger_entry_date glLines with
  | none => db
  | some dstr =>
    match oldest_fiscal_year db with
    | none => db
    | some (s, e) => extend_fiscal_years db (parse_date dstr) s e

/-- The ledger line of the Data row directly under the section of
interleavedReport, first in document order. -/
def interleavedDebitLine : LedgerLine :=
  { account := some "A", date := "2020-01-01", type := "Invoice", id := some "1",
    credit := 0, debit := 7 }

/-- The ledger line of the Data row inside the nested sub-section of
interleavedReport, second in document order. -/
def interleavedCreditLine : LedgerLine :=
  { account := some "A", date := "2020-01-01", type := "Invoice", id := some "1",
    credit := 7, debit := 0 }

/-- A ledger line with an empty date, as produced for a report Data row
whose first column is empty. -/
def emptyDateLine : LedgerLine :=
  { account := none, date := "", type := "Advance Payment", id := none,
    credit := 0, debit := 0 }

/-- Concrete reconstructed entry used to instantiate theorems. -/
def advancePaymentExample : GLEntry :=
  { id := some "17", date := "2020-04-02",
    lines :=
      [ { account := some "Debtors - QB", date := "2020-04-02", type := "Advance Payment",
          id := some "17", credit := 0, debit := 250 },
        { account := some "Bank - QB", date := "2020-04-02", type := "Advance Payment",
          id := some "17", credit := 250, debit := 0 } ] }

/-! ### Address creation (_create_address, lines 1379-1394) -/

/-- The source address payload (address["Id"], address["Line1"], address["City"]). -/
structure QBAddress where
  addrId : String
  line1 : String
  city : String
deriving DecidableEq

/-- A persisted Address document: quickbooks_id is the custom field that
frappe.db.exists filters on; quickbooks_address_id is the field name the
insert actually populates. -/
structure AddressDoc where
  quickbooks_id : Option String
  quickbooks_address_id : Option String
  address_title : String
  address_type : String
  address_line1 : String
  city : String
deriving DecidableEq

/-- Embedding of _create_address (lines 1379-1394): the existence check
looks for an Address whose quickbooks_id equals address["Id"], but the
inserted document sets quickbooks_address_id and leaves quickbooks_id
unset. -/
def create_address (entity_name address_type : String) (address : QBAddress)
    (db : List AddressDoc) : List AddressDoc :=
  if db.any (fun doc => doc.quickbooks_id == some address.addrId) then db
  else
    db ++ [{ quickbooks_id := none,
             quickbooks_address_id := some address.addrId,
             address_title := entity_name, address_type := address_type,
             address_line1 := address.line1, city := address.city }]

/-- Concrete billing address used to instantiate the idempotency theorem. -/
def billingAddressExample : QBAddress :=
  { addrId := "9", line1 := "12 High Street", city := "London" }

/-! ### Second-run idempotency of the creation paths (_migrate)

Each _save_X wrapped below is modelled at the key level: the existence
gate it runs and the quickbooks_id keys its inserts write.  Document
content fields that affect neither the gate nor the keys (names, types,
currencies, parents) are omitted.  The two _create_address calls of
_save_customer and _save_vendor sit inside the parent existence gate, so
they are only reached when the parent is being inserted for the first
time. -/

/-- An Account document at the key level (also used for tax rates, which
_save_tax_rate stores as Accounts). -/
structure AccountDoc where
  quickbooks_id : String
  company : String
  is_group : Bool
deriving DecidableEq

/-- frappe.db.exists on doctype Account filtered by quickbooks_id and
company (lines 443-446 and 521-527). -/
def account_exists (company qb_id : String) (db : List AccountDoc) : Bool :=
  db.any (fun d => d.quickbooks_id == qb_id && d.company == company)

/-- The key-relevant fields of a preprocessed Account record: its Id and
the is_group flag computed by _preprocess_accounts. -/
structure QBAccount where
  acctId : String
  is_group : Bool
deriving DecidableEq

/-- Embedding of _save_account (lines 423-499) at the key level: gate on
the raw account Id; a group account is inserted under "Group - {Id}"
followed by its posting leaf under the raw Id, a plain account under the
raw Id alone. -/
def save_account (company : String) (a : QBAccount) (db : List AccountDoc) :
    List AccountDoc :=
  if account_exists company a.acctId db then db
  else if a.is_group then
    db ++ [{ quickbooks_id := "Group - " ++ a.acctId, company := company, is_group := true },
           { quickbooks_id := a.acctId, company := company, is_group := false }]
  else
    db ++ [{ quickbooks_id := a.acctId, company := company, is_group := false }]

/-- Embedding of _save_tax_rate (lines 519-540) at the key level: gate and
insert share the key "TaxRate - {Id}". -/
def save_tax_rate (company tax_rate_id : String) (db : List AccountDoc) :
    List AccountDoc :=
  if account_exists company ("TaxRate - " ++ tax_rate_id) db then db
  else
    db ++ [{ quickbooks_id := "TaxRate - " ++ tax_rate_id, company := company,
             is_group := false }]

/-- A Customer document at the key level. -/
structure CustomerDoc where
  quickbooks_id : String
  company : String
  customer_name : String
deriving DecidableEq

/-- frappe.db.exists on doctype Customer filtered by quickbooks_id and
company (lines 551-554). -/
def customer_exists (company qb_id : String) (db : List CustomerDoc) : Bool :=
  db.any (fun d => d.quickbooks_id == qb_id && d.company == company)

/-- The fields of a fetched Customer record used by _save_customer. -/
structure QBCustomer where
  custId : String
  displayName : String
  billAddr : Option QBAddress
  shipAddr : Option QBAddress
deriving DecidableEq

/-- The two conditional _create_address calls at the end of _save_customer
and _save_vendor: billing first, then shipping, each only when present. -/
def customer_addresses (entity_name : String) (billAddr shipAddr : Option QBAddress)
    (adb : List AddressDoc) : List AddressDoc :=
  match shipAddr with
  | some a2 =>
    create_address entity_name "Shipping" a2
      (match billAddr with
       | some a1 => create_address entity_name "Billing" a1 adb
       | none => adb)
  | none =>
    match billAddr with
    | some a1 => create_address entity_name "Billing" a1 adb
    | none => adb

/-- Embedding of _save_customer (lines 549-586): the Customer insert and
both _create_address calls happen inside the Customer existence gate;
the inserted Customer carries quickbooks_id = customer["Id"].  The
frappe-assigned document name is represented by the display name. -/
def save_customer (company : String) (c : QBCustomer)
    (cdb : List CustomerDoc) (adb : List AddressDoc) :
    List CustomerDoc × List AddressDoc :=
  if customer_exists company c.custId cdb then (cdb, adb)
  else
    (cdb ++ [{ quickbooks_id := c.custId, company := company,
               customer_name := c.displayName }],
     customer_addresses c.displayName c.billAddr c.shipAddr adb)

/-- A Supplier document at the key level. -/
structure SupplierDoc where
  quickbooks_id : String
  company : String
  supplier_name : String
deriving DecidableEq

/-- frappe.db.exists on doctype Supplier filtered by quickbooks_id and
company (lines 623-626). -/
def supplier_exists (company qb_id : String) (db : List SupplierDoc) : Bool :=
  db.any (fun d => d.quickbooks_id == qb_id && d.company == company)

/-- The fields of a fetched Vendor record used by _save_vendor. -/
structure QBVendor where
  vendId : String
  displayName : String
  billAddr : Option QBAddress
  shipAddr : Option QBAddress
deriving DecidableEq

/-- Embedding of _save_vendor (lines 621-643): same shape as
_save_customer, against doctype Supplier. -/
def save_vendor (company : String) (v : QBVendor)
    (sdb : List SupplierDoc) (adb : List AddressDoc) :
    List SupplierDoc × List AddressDoc :=
  if supplier_exists company v.vendId sdb then (sdb, adb)
  else
    (sdb ++ [{ quickbooks_id := v.vendId, company := company,
               supplier_name := v.displayName }],
     customer_addresses v.displayName v.billAddr v.shipAddr adb)

/-- An Item document at the key level. -/
structure ItemDoc where
  quickbooks_id : String
  company : String
deriving DecidableEq

/-- frappe.db.exists on doctype Item filtered by quickbooks_id and company
(lines 590-593). -/
def item_exists (company qb_id : String) (db : List ItemDoc) : Bool :=
  db.any (fun d => d.quickbooks_id == qb_id && d.company == company)

/-- Embedding of _save_item (lines 588-616) at the key level: behind the
gate, only Service and Inventory items are inserted, under the raw Id. -/
def save_item (company item_id item_type : String) (db : List ItemDoc) :
    List ItemDoc :=
  if item_exists company item_id db then db
  else if item_type == "Service" || item_type == "Inventory" then
    db ++ [{ quickbooks_id := item_id, company := company }]
  else db

/-- A Sales Invoice document at the key level. -/
structure SalesInvoiceDoc where
  quickbooks_id : String
  company : String
deriving DecidableEq

/-- frappe.db.exists on doctype Sales Invoice filtered by quickbooks_id
and company (lines 687-690). -/
def sales_invoice_exists (company qb_id : String) (db : List SalesInvoiceDoc) : Bool :=
  db.any (fun d => d.quickbooks_id == qb_id && d.company == company)

/-- Embedding of _save_sales_invoice (lines 685-734) at the key level:
gate and insert share the type-prefixed quickbooks_id the caller passes
("Invoice - {Id}", "Credit Memo - {Id}", ...). -/
def save_sales_invoice_doc (company qbid : String) (db : List SalesInvoiceDoc) :
    List SalesInvoiceDoc :=
  if sales_invoice_exists company qbid db then db
  else db ++ [{ quickbooks_id := qbid, company := company }]

/-- A Purchase Invoice document at the key level. -/
structure PurchaseInvoiceDoc where
  quickbooks_id : String
  company : String
deriving DecidableEq

/-- frappe.db.exists on doctype Purchase Invoice filtered by quickbooks_id
and company (lines 923-926). -/
def purchase_invoice_exists (company qb_id : String) (db : List PurchaseInvoiceDoc) :
    Bool :=
  db.any (fun d => d.quickbooks_id == qb_id && d.company == company)

/-- Embedding of __save_purchase_invoice (lines 921-957) at the key level:
gate and insert share the type-prefixed quickbooks_id the caller passes
("Bill - {Id}", "Vendor Credit - {Id}"). -/
def save_purchase_invoice_doc (company qbid : String) (db : List PurchaseInvoiceDoc) :
    List PurchaseInvoiceDoc :=
  if purchase_invoice_exists company qbid db then db
  else db ++ [{ quickbooks_id := qbid, company := company }]

/-- Concrete documents for instantiating the idempotency theorem: the
state a first migration run leaves behind for each path. -/
def wAccountDoc : AccountDoc :=
  { quickbooks_id := "1", company := "TestCo", is_group := false }

/-- Account record matching wAccountDoc. -/
def wAccount : QBAccount := { acctId := "1", is_group := false }

/-- Tax rate Account document left by a first run for tax rate 3. -/
def wTaxRateDoc : AccountDoc :=
  { quickbooks_id := "TaxRate - 3", company := "TestCo", is_group := false }

/-- Customer document left by a first run for customer 5. -/
def wCustomerDoc : CustomerDoc :=
  { quickbooks_id := "5", company := "TestCo", customer_name := "Customer One" }

/-- Customer record matching wCustomerDoc, carrying a billing address. -/
def wCustomer : QBCustomer :=
  { custId := "5", displayName := "Customer One",
    billAddr := some billingAddressExample, shipAddr := none }

/-- Supplier document left by a first run for vendor 6. -/
def wSupplierDoc : SupplierDoc :=
  { quickbooks_id := "6", company := "TestCo", supplier_name := "Supplier One" }

/-- Vendor record matching wSupplierDoc. -/
def wVendor : QBVendor :=
  { vendId := "6", displayName := "Supplier One", billAddr := none, shipAddr := none }

/-- Item document left by a first run for item 9. -/
def wItemDoc : ItemDoc := { quickbooks_id := "9", company := "TestCo" }

/-- Sales Invoice document left by a first run for invoice 8. -/
def wSalesInvoiceDoc : SalesInvoiceDoc :=
  { quickbooks_id := "Invoice - 8", company := "TestCo" }

/-- Purchase Invoice document left by a first run for bill 4. -/
def wPurchaseInvoiceDoc : PurchaseInvoiceDoc :=
  { quickbooks_id := "Bill - 4", company := "TestCo" }

/-- Journal Entry document left by a first run for journal entry 2. -/
def wJournalEntryDoc : JEDoc :=
  { quickbooks_id := "Journal Entry - 2", accounts := [],
    posting_date := "2020-01-01" }

/-! ### Invoice routing (_save_invoice lines 655-667, _get_si_items lines 736-797) -/

/-- One element of invoice["LinkedTxn"]. -/
structure LinkedTxn where
  txnType : String
  txnId : String
deriving DecidableEq

/-- One element of invoice["Line"], by DetailType.  A SalesItemLineDetail
line carries the item reference (value and name), quantity, unit price,
the line tax code and the line amount; a DescriptionOnly line carries
int(line["Description"].split("%")[0]), modelled pre-parsed; every other
DetailType is ignored by _get_si_items except DiscountLineDetail, which
does not produce an item either. -/
inductive InvoiceLine where
  | salesItem (itemRef : String) (itemRefName : String) (qty : ℚ) (unitPrice : ℚ)
      (taxCode : String) (amount : ℚ) (descr : Option String) : InvoiceLine
  | descriptionOnly (marginPercent : Int) : InvoiceLine
  | otherDetail (detailType : String) : InvoiceLine
deriving DecidableEq

/-- The fields of a fetched Invoice record used by _save_invoice and
_get_si_items.  txnTaxCodeRef is invoice["TxnTaxDetail"]["TxnTaxCodeRef"]
when present. -/
structure QBInvoice where
  invId : String
  linkedTxns : List LinkedTxn
  lines : List InvoiceLine
  txnTaxCodeRef : Option String
deriving DecidableEq

/-- One item row of the built Sales Invoice document.  The item_code and
uom resolved from the imported Item are represented by the source item
reference. -/
structure SIItem where
  isShipping : Bool
  itemRef : String
  description : String
  qty : ℚ
  price_list_rate : ℚ
  tax_code : String
  margin_rate_or_amount : Option Int
deriving DecidableEq

/-- Tax code fallback of _get_si_items: a line tax code other than TAX is
used as is; TAX falls back to the transaction TxnTaxCodeRef, else NON. -/
def resolveTaxCode (inv : QBInvoice) (taxCode : String) : String :=
  if taxCode ≠ "TAX" then taxCode
  else
    match inv.txnTaxCodeRef with
    | some c => c
    | none => "NON"

/-- Python items[-1] update: replace the last element. -/
def updateLast {α : Type} (f : α → α) : List α → List α
  | [] => []
  | [a] => [f a]
  | a :: b :: rest => a :: updateLast f (b :: rest)

/-- Loop of _get_si_items over invoice["Line"] with the items accumulator;
none models the IndexError of items[-1] on an empty accumulator. -/
def get_si_items_aux (inv : QBInvoice) (is_return : Bool) :
    List InvoiceLine → List SIItem → Option (List SIItem)
  | [], acc => some acc
  | InvoiceLine.salesItem itemRef itemRefName qty unitPrice taxCode amount descr :: rest,
      acc =>
    let tax_code := resolveTaxCode inv taxCode
    let item : SIItem :=
      if itemRef ≠ "SHIPPING_ITEM_ID" then
        { isShipping := false, itemRef := itemRef,
          description := descr.getD itemRefName, qty := qty,
          price_list_rate := unitPrice, tax_code := tax_code,
          margin_rate_or_amount := none }
      else
        { isShipping := true, itemRef := itemRef, description := "Shipping",
          qty := 1, price_list_rate := amount, tax_code := tax_code,
          margin_rate_or_amount := none }
    let item2 := if is_return then { item with qty := -item.qty } else item
    get_si_items_aux inv is_return rest (acc ++ [item2])
  | InvoiceLine.descriptionOnly m :: rest, acc =>
    match acc with
    | [] => none
    | _ :: _ =>
      get_si_items_aux inv is_return rest
        (updateLast (fun it => { it with margin_rate_or_amount := some m }) acc)
  | InvoiceLine.otherDetail _ :: rest, acc =>
    get_si_items_aux inv is_return rest acc

/-- Embedding of _get_si_items (lines 736-797). -/
def get_si_items (inv : QBInvoice) (is_return : Bool) : Option (List SIItem) :=
  get_si_items_aux inv is_return inv.lines []

/-- Which document _save_invoice and its siblings produce. -/
inductive SaveInvoiceResult where
  | journalEntry (quickbooks_id : String) : SaveInvoiceResult
  | salesInvoice (quickbooks_id : String) (items : Option (List SIItem))
      (is_return : Bool) (is_pos : Bool) : SaveInvoiceResult
deriving DecidableEq

/-- Embedding of _save_invoice (lines 655-667): a linked StatementCharge
or ReimburseCharge routes the record to journal-entry synthesis from the
reconstructed General Ledger lines; otherwise a Sales Invoice document is
built with the item list of _get_si_items. -/
def save_invoice (inv : QBInvoice) : SaveInvoiceResult :=
  if inv.linkedTxns.any
      (fun l => l.txnType == "StatementCharge" || l.txnType == "ReimburseCharge") then
    SaveInvoiceResult.journalEntry ("Invoice - " ++ inv.invId)
  else
    SaveInvoiceResult.salesInvoice ("Invoice - " ++ inv.invId) (get_si_items inv false)
      false false

/-- Embedding of _save_credit_memo (lines 669-672): a return Sales Invoice. -/
def save_credit_memo (inv : QBInvoice) : SaveInvoiceResult :=
  SaveInvoiceResult.salesInvoice ("Credit Memo - " ++ inv.invId) (get_si_items inv true)
    true false

/-- Embedding of _save_refund_receipt (lines 679-683): a return POS Sales
Invoice. -/
def save_refund_receipt (inv : QBInvoice) : SaveInvoiceResult :=
  SaveInvoiceResult.salesInvoice ("Refund Receipt - " ++ inv.invId) (get_si_items inv true)
    true true

/-- Quantity negation applied to an item row of a return invoice. -/
def negateQty (it : SIItem) : SIItem :=
  { it with qty := -it.qty }

/-- Invoice linked to a StatementCharge, used to instantiate the routing
theorem. -/
def statementChargeInvoice : QBInvoice :=
  { invId := "7", linkedTxns := [{ txnType := "StatementCharge", txnId := "12" }],
    lines := [], txnTaxCodeRef := none }

/-- Invoice with an ordinary item line and no charge linkage. -/
def plainInvoice : QBInvoice :=
  { invId := "8", linkedTxns := [{ txnType := "Payment", txnId := "1" }],
    lines := [InvoiceLine.salesItem "I1" "Item One" 2 50 "NON" 100 none],
    txnTaxCodeRef := none }

/-- The single item row built for plainInvoice. -/
def plainInvoiceItem : SIItem :=
  { isShipping := false, itemRef := "I1", description := "Item One", qty := 2,
    price_list_rate := 50, tax_code := "NON", margin_rate_or_amount := none }

/-! ### Payments (_save_payment, lines 1025-1116) -/

/-- One element of payment["Line"]: the first linked transaction and the
line amount. -/
structure PaymentLine where
  linkedTxnType : String
  linkedTxnId : String
  amount : ℚ
deriving DecidableEq

/-- The fields of a fetched Payment record used by _save_payment. -/
structure QBPayment where
  payId : String
  depositToAccountRef : Option String
  lines : List PaymentLine
  totalAmt : ℚ
  txnDate : String
deriving DecidableEq

/-- A persisted Sales Invoice document as read back by _save_payment. -/
structure SIDoc where
  quickbooks_id : String
  name : String
  customer : String
  debit_to : String
deriving DecidableEq

/-- The migrator-visible state _save_payment can touch: the documents it
reads and writes and the error log. -/
structure MigState where
  salesInvoices : List SIDoc
  journalEntries : List JEDoc
  errorLog : Nat
deriving DecidableEq

/-- frappe.get_all("Sales Invoice", filters on quickbooks_id)[0]. -/
def findSalesInvoice (db : List SIDoc) (qbid : String) : Option SIDoc :=
  (db.filter (fun si => si.quickbooks_id == qbid)).head?

/-- frappe.get_doc("Journal Entry", filters on quickbooks_id). -/
def findJournalEntry (db : List JEDoc) (qbid : String) : Option JEDoc :=
  (db.filter (fun je => je.quickbooks_id == qbid)).head?

/-- The accounts list accumulated by the loop of _save_payment over
payment["Line"]: a line linked to an Invoice contributes a receivable
credit line per matching Sales Invoice document and per matching Journal
Entry document (reference_name stands for the document identifier).  The
error value models the uncaught IndexError when a matching Journal Entry
has no Customer party line, which aborts the whole payment into the
except block. -/
def paymentAccounts (dcc : Option String) (st : MigState) :
    List PaymentLine → Except Unit (List JEAccountLine)
  | [] => Except.ok []
  | line :: rest =>
    if line.linkedTxnType = "Invoice" then
      let siQbid := "Invoice - " ++ line.linkedTxnId
      let siPart : List JEAccountLine :=
        match findSalesInvoice st.salesInvoices siQbid with
        | some si =>
          [{ account := some si.debit_to, cost_center := dcc,
             credit_in_account_currency := some line.amount,
             debit_in_account_currency := none,
             party_type := some "Customer", party := some si.customer,
             reference_type := some "Sales Invoice", reference_name := some si.name }]
        | none => []
      match findJournalEntry st.journalEntries siQbid with
      | some je =>
        match (je.accounts.filter (fun a => a.party_type == some "Customer")).head? with
        | some cal =>
          (paymentAccounts dcc st rest).map
            (fun accs =>
              siPart ++
                [{ account := cal.account, cost_center := dcc,
                   credit_in_account_currency := some line.amount,
                   debit_in_account_currency := none,
                   party_type := some "Customer", party := cal.party,
                   reference_type := some "Journal Entry",
                   reference_name := some je.quickbooks_id }] ++ accs)
        | none => Except.error ()
      | none => (paymentAccounts dcc st rest).map (fun accs => siPart ++ accs)
    else
      paymentAccounts dcc st rest

/-- Embedding of _save_payment (lines 1025-1116): a payment without
DepositToAccountRef returns immediately; otherwise the accounts list is
built, a debit line on the deposit account is appended and the journal
entry is saved behind the idempotency gate; a failure while building the
accounts is caught and logged. -/
def save_payment (dcc : Option String) (nameById : String → String) (p : QBPayment)
    (st : MigState) : MigState :=
  match p.depositToAccountRef with
  | none => st
  | some depRef =>
    match paymentAccounts dcc st p.lines with
    | Except.error _ => { st with errorLog := st.errorLog + 1 }
    | Except.ok accs =>
      let accounts := accs ++
        [{ account := some (nameById depRef), cost_center := dcc,
           credit_in_account_currency := none,
           debit_in_account_currency := some p.totalAmt,
           party_type := none, party := none,
           reference_type := none, reference_name := none }]
      let newJEs :=
        save_journal_entry_doc ("Payment - " ++ p.payId) accounts p.txnDate
          st.journalEntries
      { st with journalEntries := newJEs }

/-- A payment lacking DepositToAccountRef, used to instantiate the frame
theorem. -/
def undepositedPayment : QBPayment :=
  { payId := "3", depositToAccountRef := none,
    lines := [{ linkedTxnType := "Invoice", linkedTxnId := "8", amount := 100 }],
    totalAmt := 100, txnDate := "2020-02-02" }

/-- The Sales Invoice document present in examplePaymentState. -/
def examplePaymentSI : SIDoc :=
  { quickbooks_id := "Invoice - 8", name := "SI-1",
    customer := "Customer One", debit_to := "Debtors - QB" }

/-- A non-trivial migrator state used to instantiate the frame theorem. -/
def examplePaymentState : MigState :=
  { salesInvoices := [examplePaymentSI], journalEntries := [], errorLog := 0 }

end QBConnect

namespace QBConnect

/-- Paging helper: a page requested at position 1000 + p of records is the
page requested at position p of the records with the first 1000 dropped. -/
theorem fetchPage_add_1000 {α : Type} (records : List α) (p : Nat) (hp : 1 ≤ p) :
    fetchPage records (1000 + p) = fetchPage (records.drop 1000) p := by
  unfold fetchPage max_result_count
  rw [List.drop_drop]
  have h : 1000 + p - 1 = 1000 + (p - 1) := by omega
  rw [h]

/-- Paging helper: with fuel bounding the number of pages, concatenating
all fetched pages recovers the record list. -/
theorem join_fetchAllPages_aux {α : Type} (k : Nat) :
    ∀ l : List α, l.length ≤ 1000 * k → (fetchAllPages l).flatten = l := by
  induction k with
  | zero =>
    intro l hl
    have : l = [] := List.eq_nil_of_length_eq_zero (by omega)
    subst this
    simp [fetchAllPages, pagePositions, max_result_count]
  | succ k ih =>
    intro l hl
    by_cases h0 : l.length = 0
    · have : l = [] := List.eq_nil_of_length_eq_zero h0
      subst this
      simp [fetchAllPages, pagePositions, max_result_count]
    · have hcount : (l.length + (max_result_count - 1)) / max_result_count
          = ((l.drop 1000).length + (max_result_count - 1)) / max_result_count + 1 := by
        unfold max_result_count
        simp only [List.length_drop]
        omega
      unfold fetchAllPages pagePositions
      rw [hcount, List.range'_succ]
      have hmap : List.map (fetchPage l)
            (List.range' (1 + max_result_count)
              (((l.drop 1000).length + (max_result_count - 1)) / max_result_count)
              max_result_count)
          = List.map (fetchPage (l.drop 1000))
            (List.range' 1
              (((l.drop 1000).length + (max_result_count - 1)) / max_result_count)
              max_result_count) := by
        unfold max_result_count
        rw [show (1 + 1000 : Nat) = 1000 + 1 by omega, ← List.map_add_range', List.map_map]
        refine List.map_congr_left ?_
        intro p hp
        rw [List.mem_range'] at hp
        obtain ⟨i, _, rfl⟩ := hp
        exact fetchPage_add_1000 l (1 + 1000 * i) (by omega)
      rw [List.map_cons, List.flatten_cons, hmap]
      have hrec : (fetchAllPages (l.drop 1000)).flatten = l.drop 1000 := by
        refine ih (l.drop 1000) ?_
        simp only [List.length_drop]
        omega
      unfold fetchAllPages pagePositions at hrec
      rw [hrec]
      show (l.drop 0).take max_result_count ++ l.drop 1000 = l
      rw [List.drop_zero]
      exact List.take_append_drop 1000 l

/-- Paging: concatenating all fetched pages recovers the record list. -/
theorem join_fetchAllPages {α : Type} (l : List α) : (fetchAllPages l).flatten = l :=
  join_fetchAllPages_aux l.length l (by omega)

/-- C5: the pagination of _migrate_entries issues exactly the start
positions p with 1 <= p <= n and p mod 1000 = 1; distinct requested
windows [p, p + 999] are disjoint; the concatenation of the returned
pages is exactly the unpaginated record list; and a reported count of
zero performs zero page fetches. -/
theorem migrate_entries_pagination {α : Type} (records : List α) :
    (∀ p, p ∈ pagePositions records.length ↔
        1 ≤ p ∧ p ≤ records.length ∧ p % 1000 = 1)
    ∧ (∀ p q, p ∈ pagePositions records.length → q ∈ pagePositions records.length →
        p ≠ q → ∀ x, ¬(p ≤ x ∧ x < p + 1000 ∧ q ≤ x ∧ x < q + 1000))
    ∧ (fetchAllPages records).flatten = records
    ∧ pagePositions 0 = [] := by
  refine ⟨?_, ?_, ?_, ?_⟩
  · intro p
    unfold pagePositions max_result_count
    rw [List.mem_range']
    constructor
    · rintro ⟨i, hi, rfl⟩
      refine ⟨by omega, ?_, by omega⟩
      have h2 : (i + 1) * 1000 ≤ records.length + 999 := by
        have := (Nat.le_div_iff_mul_le (by omega : 0 < 1000)).mp hi
        omega
      omega
    · rintro ⟨h1, h2, h3⟩
      refine ⟨p / 1000, ?_, by omega⟩
      have : (p / 1000 + 1) * 1000 ≤ records.length + 999 := by omega
      exact (Nat.le_div_iff_mul_le (by omega : 0 < 1000)).mpr this
  · intro p q hp hq hpq x
    unfold pagePositions max_result_count at hp hq
    rw [List.mem_range'] at hp hq
    obtain ⟨i, _, rfl⟩ := hp
    obtain ⟨j, _, rfl⟩ := hq
    omega
  · exact join_fetchAllPages records
  · rfl

/-- C4 counterexample: when the server answers 401, then 401 again to the
retried request, then 200, the _get wrapper calls _refresh_tokens twice and
issues three requests, so the refresh-and-retry is not capped at one per
original call. -/
theorem get_counterexample_double_refresh :
    requestWithRefresh [401, 401, 200] = some (2, 200) ∧ (2 : Nat) ≠ 1 := by
  constructor
  · rfl
  · decide

/-- C4 (amended): on HTTP 401 the _get and _post wrappers refresh the token
and recursively retry with no bound: one refresh per consecutive 401
answer, stopping at the first non-401 response, which is returned.  A
refresh failure is not caught and propagates. -/
theorem get_refresh_per_401 (k : Nat) (s : Nat) (h : s ≠ 401) :
    requestWithRefresh (List.replicate k 401 ++ [s]) = some (k, s) := by
  induction k with
  | zero => simp [requestWithRefresh, h]
  | succ k ih => simp [List.replicate_succ, requestWithRefresh, ih]

/-- Witness for get_refresh_per_401 at two consecutive 401s and a 200. -/
theorem get_refresh_per_401_witness :
    (200 : Nat) ≠ 401 ∧ requestWithRefresh (List.replicate 2 401 ++ [200]) = some (2, 200) :=
  ⟨by decide, get_refresh_per_401 2 200 (by decide)⟩

/-- Reading back an upserted dict: the written key holds the updated value,
every other key is unchanged. -/
theorem dictFind_dictUpsert {κ β : Type} [DecidableEq κ] (k k0 : κ) (f : Option β → β)
    (d : List (κ × β)) :
    dictFind k (dictUpsert k0 f d) =
      if k0 = k then some (f (dictFind k0 d)) else dictFind k d := by
  induction d with
  | nil => by_cases h : k0 = k <;> simp [dictUpsert, dictFind, h]
  | cons hd rest ih =>
    obtain ⟨k1, v⟩ := hd
    by_cases h10 : k1 = k0
    · subst h10
      by_cases h1k : k1 = k <;> simp [dictUpsert, dictFind, h1k]
    · by_cases h1k : k1 = k
      · have ha : ¬ k = k0 := fun h => h10 (h1k.trans h)
        have hb : ¬ k0 = k := fun h => ha h.symm
        simp [dictUpsert, dictFind, h10, h1k, ha, hb]
      · simp [dictUpsert, dictFind, h10, h1k, ih]

/-- Effect of the grouping step on a single lookup: the line is appended to
the entry at its own (type, id) key, created on first sight with that
line's id and date; every other key is untouched. -/
theorem findEntry_addLineToGL (gl : GeneralLedger) (l : LedgerLine) (t : String)
    (i : Option String) :
    findEntry (addLineToGL gl l) t i =
      if l.type = t ∧ l.id = i then
        match findEntry gl t i with
        | none => some { id := l.id, date := l.date, lines := [l] }
        | some e => some { e with lines := e.lines ++ [l] }
      else findEntry gl t i := by
  unfold findEntry addLineToGL
  rw [dictFind_dictUpsert]
  by_cases ht : l.type = t
  case neg =>
    rw [if_neg ht, if_neg (fun h : l.type = t ∧ l.id = i => ht h.1)]
  case pos =>
    subst ht
    rw [if_pos rfl]
    simp only [Option.some_bind]
    rw [dictFind_dictUpsert]
    by_cases hi : l.id = i
    case neg =>
      rw [if_neg hi, if_neg (fun h : True ∧ l.id = i => hi h.2)]
      cases hfind : dictFind l.type gl with
      | none => simp [dictFind]
      | some td => simp
    case pos =>
      subst hi
      rw [if_pos rfl, if_pos ⟨trivial, rfl⟩]
      cases hfind : dictFind l.type gl with
      | none => simp [dictFind]
      | some td =>
        cases h2 : dictFind l.id td with
        | none => simp [h2]
        | some e => simp [h2]

/-- Invariant of the grouping loop: the entry stored at [t][i] collects
exactly the lines with that type and id, in input order; its stored id is
the grouping key and its stored date is the date of the first such line. -/
theorem build_gl_entry (ls : List LedgerLine) (t : String) (i : Option String) :
    findEntry (build_general_ledger ls) t i =
      match ls.filter (fun l => decide (l.type = t ∧ l.id = i)) with
      | [] => none
      | first :: rest => some { id := i, date := first.date, lines := first :: rest } := by
  induction ls using List.reverseRecOn with
  | nil => rfl
  | append_singleton ls l ih =>
    have hstep : build_general_ledger (ls ++ [l]) = addLineToGL (build_general_ledger ls) l := by
      simp [build_general_ledger, List.foldl_append]
    rw [hstep, findEntry_addLineToGL, ih, List.filter_append]
    by_cases hp : l.type = t ∧ l.id = i
    · obtain ⟨ht, hi⟩ := hp
      have hone : List.filter (fun x => decide (x.type = t ∧ x.id = i)) [l] = [l] := by
        simp [ht, hi]
      rw [hone, if_pos ⟨ht, hi⟩]
      cases hfl : List.filter (fun x => decide (x.type = t ∧ x.id = i)) ls with
      | nil => simp [hi]
      | cons first rest => simp
    · have hnil : List.filter (fun x => decide (x.type = t ∧ x.id = i)) [l] = [] := by
        simp only [List.filter, decide_eq_false hp, List.filter_nil]
      rw [hnil, if_neg hp, List.append_nil]

/-- C2 (amended): _fetch_general_ledger groups the flattened ledger lines
first by transaction type and then by transaction id; the entry at
general_ledger[t][i] holds the key i as its id, the date of the first
grouped line, and exactly the flattened lines with that type and id in
the order of the flattening iteration over gl_entries, which runs
account by account (accounts in the order their sections finished) and,
inside one section, places rows of nested sub-sections before the Data
rows of the section itself, so it can differ from document order of the
report. -/
theorem fetch_general_ledger_grouping (env : AccountEnv) (top : List ReportRow)
    (t : String) (i : Option String) :
    findEntry (fetch_general_ledger env top) t i =
      match (flattenGLEntries (fetch_gl_entries env top)).filter
          (fun l => decide (l.type = t ∧ l.id = i)) with
      | [] => none
      | first :: rest => some { id := i, date := first.date, lines := first :: rest } :=
  build_gl_entry (flattenGLEntries (fetch_gl_entries env top)) t i

/-- C2 counterexample: in a report with one section for account A holding a
Data row r1 and then a headerless sub-section holding a Data row r2 of the
same transaction, the recursive walk meets r1 before r2, but the entry for
that transaction lists r2 before r1: the sub-section extends gl_entries
during the loop while the enclosing section appends its own Data rows only
after the loop, so document order is not preserved. -/
theorem general_ledger_doc_order_counterexample :
    entryLines (fetch_general_ledger glExampleEnv interleavedReport) "Invoice" (some "1")
        = [interleavedCreditLine, interleavedDebitLine]
    ∧ (specDocOrderLines glExampleEnv interleavedReport).filter
          (fun l => decide (l.type = "Invoice" ∧ l.id = some "1"))
        = [interleavedDebitLine, interleavedCreditLine]
    ∧ [interleavedCreditLine, interleavedDebitLine]
        ≠ [interleavedDebitLine, interleavedCreditLine] := by
  refine ⟨?_, ?_, ?_⟩
  · simp [entryLines, findEntry, fetch_general_ledger, build_general_ledger,
      flattenGLEntries, fetch_gl_entries, get_gl_entries_from_section,
      get_gl_entries_rows, resolveAccount, glExampleEnv, interleavedReport,
      extendGLEntries, dictUpsert, dictFind, addLineToGL, mkLedgerLine,
      interleavedCreditLine, interleavedDebitLine]
  · simp [specDocOrderLines, specDocOrderSection, specDocOrderRows, resolveAccount,
      glExampleEnv, interleavedReport, mkLedgerLine,
      interleavedCreditLine, interleavedDebitLine]
  · decide

/-- C3: a section whose header account cell has no id and carries the
display-name value Not Specified leaves gl_entries unchanged, whatever its
rows and nested sub-sections are, so it contributes zero ledger lines to
any account and to any reconstructed entry. -/
theorem not_specified_section_contributes_nothing (env : AccountEnv)
    (rows : List ReportRow) (account : Option String) (st : GLState) :
    get_gl_entries_from_section env
      (some { id := none, value := some "Not Specified" }) rows account st = st := by
  simp [get_gl_entries_from_section, resolveAccount]

/-- Transitivity of the date order. -/
theorem QDate.Lt.trans {a b c : QDate} (h1 : QDate.Lt a b) (h2 : QDate.Lt b c) :
    QDate.Lt a c := by
  unfold QDate.Lt at *
  omega

/-- Shifting one year back gives a strictly earlier date. -/
theorem add_years_lt_self (d : QDate) : QDate.Lt (add_years d (-1)) d := by
  simp only [QDate.Lt, add_years]
  omega

/-- Every month has at least 28 days. -/
theorem daysInMonth_ge_28 (y : Int) (m : Nat) : 28 ≤ daysInMonth y m := by
  unfold daysInMonth
  split_ifs <;> omega

/-- February length spelled with the leap test. -/
theorem daysInMonth_feb (y : Int) : daysInMonth y 2 = if isLeapYear y then 29 else 28 := by
  unfold daysInMonth
  simp

/-- Outside February the month length is independent of the year. -/
theorem daysInMonth_not_feb (y y2 : Int) (m : Nat) (hm : ¬ m = 2) :
    daysInMonth y m = daysInMonth y2 m := by
  unfold daysInMonth
  simp [hm]

/-- Two consecutive years are never both leap years. -/
theorem not_leap_consecutive (y : Int) :
    ¬(isLeapYear y = true ∧ isLeapYear (y - 1) = true) := by
  simp only [isLeapYear, decide_eq_true_eq]
  omega

/-- Shifting a valid date one year back yields a valid date. -/
theorem valid_add_years {d : QDate} (h : d.Valid) : (add_years d (-1)).Valid := by
  have h28 := daysInMonth_ge_28 (d.year + -1) d.month
  simp only [QDate.Valid, add_years] at *
  omega

/-- Shifting a valid date one year back never lands on February 29 (two
consecutive leap years would be needed). -/
theorem add_years_not_feb29 {d : QDate} (h : d.Valid) :
    ¬((add_years d (-1)).month = 2 ∧ (add_years d (-1)).day = 29) := by
  rintro ⟨hm, hd⟩
  simp only [add_years] at hm hd
  obtain ⟨_, _, _, h4⟩ := h
  rw [hm] at h4 hd
  rw [daysInMonth_feb] at h4 hd
  cases hy : isLeapYear d.year with
  | false =>
    rw [hy] at h4
    simp only [if_false, Bool.false_eq_true] at h4
    cases hy2 : isLeapYear (d.year + -1) <;> rw [hy2] at hd <;> simp at hd <;> omega
  | true =>
    cases hy2 : isLeapYear (d.year + -1) with
    | false =>
      rw [hy2] at hd
      simp at hd
      omega
    | true =>
      refine not_leap_consecutive d.year ⟨hy, ?_⟩
      rw [show d.year - 1 = d.year + -1 by ring]
      exact hy2

/-- A valid date that is not February 29 also fits in the same month one
year earlier. -/
theorem day_le_daysInMonth_prev {s : QDate} (hv : s.Valid)
    (hfeb : ¬(s.month = 2 ∧ s.day = 29)) :
    s.day ≤ daysInMonth (s.year + -1) s.month := by
  obtain ⟨_, _, _, h4⟩ := hv
  by_cases hm : s.month = 2
  · rw [hm] at h4 ⊢
    rw [daysInMonth_feb] at h4 ⊢
    have h29 : ¬ s.day = 29 := fun h => hfeb ⟨hm, h⟩
    cases hy : isLeapYear s.year <;> rw [hy] at h4 <;>
      cases hy2 : isLeapYear (s.year + -1) <;> simp_all <;> omega
  · rw [daysInMonth_not_feb (s.year + -1) s.year s.month hm]
    exact h4

/-- Strict monotonicity of the year shift below a valid date that is not
February 29 (the only collapse case, February 28 against February 29 of a
leap year, is excluded). -/
theorem lt_add_years_of_lt {x s : QDate} (h : QDate.Lt x s) (hv : s.Valid)
    (hfeb : ¬(s.month = 2 ∧ s.day = 29)) :
    QDate.Lt (add_years x (-1)) (add_years s (-1)) := by
  have hd := day_le_daysInMonth_prev hv hfeb
  unfold QDate.Lt at h ⊢
  simp only [add_years]
  rcases h with h | ⟨hy, h⟩
  · left
    omega
  · right
    refine ⟨by omega, ?_⟩
    rcases h with h | ⟨hm, h⟩
    · left
      exact h
    · right
      refine ⟨hm, ?_⟩
      rw [hy, hm]
      omega

/-- Main invariant of the fiscal-year loop: starting from a valid oldest
year [s, e] that does not start on February 29 and whose end lies less
than one calendar year after s (add_years e (-1) earlier than s), the
created list forms a one-year-back chain from (s, e), all years pairwise
end strictly before every earlier year starts, and the loop runs at most
one iteration per year between dmin and s. -/
theorem create_fiscal_years_spec (dmin : QDate) :
    ∀ (n : Nat) (s e : QDate), (s.year + 1 - dmin.year).toNat = n → s.Valid →
      ¬(s.month = 2 ∧ s.day = 29) → QDate.Lt (add_years e (-1)) s →
      List.Chain' (fun a b => b = (add_years a.1 (-1), add_years a.2 (-1)))
          ((s, e) :: create_fiscal_years dmin s e)
      ∧ List.Pairwise (fun a b => QDate.Lt b.2 a.1)
          ((s, e) :: create_fiscal_years dmin s e)
      ∧ (create_fiscal_years dmin s e).length ≤ n := by
  intro n
  induction n using Nat.strong_induction_on with
  | _ n ih =>
    intro s e hn hv hfeb hspan
    rw [create_fiscal_years]
    by_cases hlt : QDate.Lt dmin s
    · rw [if_pos hlt]
      have hv1 : (add_years s (-1)).Valid := valid_add_years hv
      have hfeb1 := add_years_not_feb29 hv
      have hspan1 : QDate.Lt (add_years (add_years e (-1)) (-1)) (add_years s (-1)) :=
        lt_add_years_of_lt hspan hv hfeb
      have hy : dmin.year ≤ s.year := by
        unfold QDate.Lt at hlt
        omega
      have hmeas : ((add_years s (-1)).year + 1 - dmin.year).toNat < n := by
        simp only [add_years]
        omega
      obtain ⟨hchain, hpair, hlen⟩ :=
        ih _ hmeas (add_years s (-1)) (add_years e (-1)) rfl hv1 hfeb1 hspan1
      refine ⟨List.chain'_cons.mpr ⟨rfl, hchain⟩, ?_, ?_⟩
      · rw [List.pairwise_cons]
        refine ⟨?_, hpair⟩
        intro b hb
        rcases List.mem_cons.mp hb with rfl | hb2
        · exact hspan
        · exact QDate.Lt.trans ((List.pairwise_cons.mp hpair).1 b hb2) (add_years_lt_self s)
      · simp only [List.length_cons]
        omega
    · rw [if_neg hlt]
      exact ⟨List.chain'_singleton _, List.pairwise_singleton _ _, by simp⟩

/-- Termination value of the fiscal-year loop: the last created year no
longer starts after the smallest ledger date. -/
theorem create_fiscal_years_last (dmin : QDate) :
    ∀ (n : Nat) (s e : QDate), (s.year + 1 - dmin.year).toNat = n → QDate.Lt dmin s →
      ∃ last, (create_fiscal_years dmin s e).getLast? = some last
        ∧ ¬ QDate.Lt dmin last.1 := by
  intro n
  induction n using Nat.strong_induction_on with
  | _ n ih =>
    intro s e hn hlt
    rw [create_fiscal_years, if_pos hlt]
    by_cases hlt1 : QDate.Lt dmin (add_years s (-1))
    · have hy : dmin.year ≤ s.year := by
        unfold QDate.Lt at hlt
        omega
      have hmeas : ((add_years s (-1)).year + 1 - dmin.year).toNat < n := by
        simp only [add_years]
        omega
      obtain ⟨last, hl, hnr⟩ := ih _ hmeas (add_years s (-1)) (add_years e (-1)) rfl hlt1
      refine ⟨last, ?_, hnr⟩
      cases hc : create_fiscal_years dmin (add_years s (-1)) (add_years e (-1)) with
      | nil =>
        rw [hc] at hl
        simp at hl
      | cons y ys =>
        rw [hc] at hl
        rw [List.getLast?_cons_cons]
        exact hl
    · refine ⟨(add_years s (-1), add_years e (-1)), ?_, hlt1⟩
      rw [create_fiscal_years, if_neg hlt1]
      rfl

/-- C6 (amended): when the smallest ledger date D is before the start S of
the oldest fiscal year [S, E], and additionally S and E are valid dates,
S is not February 29 and E lies less than one calendar year after S (the
state left by a single previously created fiscal year), the extension
loop terminates after at most one iteration per year of distance, creates
at least one year, each created year is exactly one calendar year
(leap-aware, day-clamped) before the previous one, no two of the years,
the initial one included, overlap, the last created year starts no later
than D, and the run only appends to the fiscal year table. -/
theorem create_fiscal_years_correct (db : List (QDate × QDate)) (dmin s e : QDate)
    (hd : QDate.Lt dmin s) (hs : s.Valid)
    (hfeb : ¬(s.month = 2 ∧ s.day = 29))
    (hspan : QDate.Lt (add_years e (-1)) s) :
    create_fiscal_years dmin s e ≠ []
    ∧ List.Chain' (fun a b => b = (add_years a.1 (-1), add_years a.2 (-1)))
        ((s, e) :: create_fiscal_years dmin s e)
    ∧ List.Pairwise (fun a b => QDate.Lt b.2 a.1)
        ((s, e) :: create_fiscal_years dmin s e)
    ∧ (∃ last, (create_fiscal_years dmin s e).getLast? = some last
        ∧ ¬ QDate.Lt dmin last.1)
    ∧ (create_fiscal_years dmin s e).length ≤ (s.year + 1 - dmin.year).toNat
    ∧ extend_fiscal_years db dmin s e = db ++ create_fiscal_years dmin s e := by
  obtain ⟨hchain, hpair, hlen⟩ := create_fiscal_years_spec dmin _ s e rfl hs hfeb hspan
  obtain ⟨last, hl, hnl⟩ := create_fiscal_years_last dmin _ s e rfl hd
  refine ⟨?_, hchain, hpair, ⟨last, hl, hnl⟩, hlen, rfl⟩
  intro hemp
  rw [hemp] at hl
  simp at hl

/-- Witness for create_fiscal_years_correct: D = 2018-06-01 against the
oldest year [2020-01-01, 2020-12-31]. -/
theorem create_fiscal_years_correct_witness :
    QDate.Lt ⟨2018, 6, 1⟩ ⟨2020, 1, 1⟩
    ∧ QDate.Valid ⟨2020, 1, 1⟩
    ∧ ¬((⟨2020, 1, 1⟩ : QDate).month = 2 ∧ (⟨2020, 1, 1⟩ : QDate).day = 29)
    ∧ QDate.Lt (add_years ⟨2020, 12, 31⟩ (-1)) ⟨2020, 1, 1⟩
    ∧ create_fiscal_years ⟨2018, 6, 1⟩ ⟨2020, 1, 1⟩ ⟨2020, 12, 31⟩ ≠ []
    ∧ List.Pairwise (fun a b => QDate.Lt b.2 a.1)
        ((⟨2020, 1, 1⟩, ⟨2020, 12, 31⟩)
          :: create_fiscal_years ⟨2018, 6, 1⟩ ⟨2020, 1, 1⟩ ⟨2020, 12, 31⟩) :=
  ⟨by decide, by decide, by decide, by decide,
    (create_fiscal_years_correct [] ⟨2018, 6, 1⟩ ⟨2020, 1, 1⟩ ⟨2020, 12, 31⟩
      (by decide) (by decide) (by decide) (by decide)).1,
    (create_fiscal_years_correct [] ⟨2018, 6, 1⟩ ⟨2020, 1, 1⟩ ⟨2020, 12, 31⟩
      (by decide) (by decide) (by decide) (by decide)).2.2.1⟩

/-- C6 counterexample: with D = 2019-06-01 before S = 2020-01-01 (the only
hypothesis the claim makes) and an oldest fiscal year [2020-01-01,
2021-01-01], the loop creates [2019-01-01, 2020-01-01], whose end equals
the initial year start: the two years share the day 2020-01-01, so the
created year overlaps the initial year. -/
theorem fiscal_years_overlap_counterexample :
    QDate.Lt ⟨2019, 6, 1⟩ ⟨2020, 1, 1⟩
    ∧ create_fiscal_years ⟨2019, 6, 1⟩ ⟨2020, 1, 1⟩ ⟨2021, 1, 1⟩
        = [(⟨2019, 1, 1⟩, ⟨2020, 1, 1⟩)]
    ∧ ¬ QDate.Lt (⟨2020, 1, 1⟩ : QDate) ⟨2020, 1, 1⟩
    ∧ ¬ QDate.Lt (⟨2021, 1, 1⟩ : QDate) ⟨2019, 1, 1⟩ := by
  refine ⟨by decide, ?_, by decide, by decide⟩
  rw [create_fiscal_years, if_pos (by decide)]
  rw [create_fiscal_years, if_neg (by decide)]
  decide

/-- C9: when no reconstructed ledger line carries a non-empty date, the
fiscal-year step creates nothing and leaves the fiscal year table exactly
as it was (the min() call raises and the except block only logs). -/
theorem fiscal_years_skipped_without_dates (glLines : List LedgerLine)
    (db : List (QDate × QDate)) (h : ∀ l ∈ glLines, l.date = "") :
    create_fiscal_years_step glLines db = db := by
  have hnil : glLines.filter (fun l => decide (¬ l.date = "")) = [] := by
    rw [List.filter_eq_nil_iff]
    intro a ha
    simp [h a ha]
  unfold create_fiscal_years_step smallest_ledger_entry_date
  rw [hnil]
  rfl

/-- Witness for fiscal_years_skipped_without_dates on a one-line ledger
with an empty date and a one-year table. -/
theorem fiscal_years_skipped_without_dates_witness :
    (∀ l ∈ [emptyDateLine], l.date = "")
    ∧ create_fiscal_years_step [emptyDateLine] [(⟨2020, 1, 1⟩, ⟨2020, 12, 31⟩)]
        = [(⟨2020, 1, 1⟩, ⟨2020, 12, 31⟩)] :=
  ⟨by decide, fiscal_years_skipped_without_dates _ _ (by decide)⟩

/-- Unfolding lemma for sumDebits on a cons cell. -/
theorem sumDebits_cons (a : JEAccountLine) (accs : List JEAccountLine) :
    sumDebits (a :: accs) = a.debit_in_account_currency.getD 0 + sumDebits accs := by
  simp [sumDebits]

/-- Unfolding lemma for sumCredits on a cons cell. -/
theorem sumCredits_cons (a : JEAccountLine) (accs : List JEAccountLine) :
    sumCredits (a :: accs) = a.credit_in_account_currency.getD 0 + sumCredits accs := by
  simp [sumCredits]

/-- Summation helper: when every credit-carrying line has zero debit, the
synthesized debit total equals the source debit total. -/
theorem sumDebits_map_ledgerLineToAccount (dcc : Option String) (lines : List LedgerLine)
    (h : ∀ l ∈ lines, l.credit ≠ 0 → l.debit = 0) :
    sumDebits (lines.map (ledgerLineToAccount dcc)) = (lines.map LedgerLine.debit).sum := by
  induction lines with
  | nil => rfl
  | cons l ls ih =>
    have h1 := h l (List.mem_cons_self l ls)
    have h2 : ∀ x ∈ ls, x.credit ≠ 0 → x.debit = 0 :=
      fun x hx => h x (List.mem_cons_of_mem l hx)
    rw [List.map_cons, sumDebits_cons, ih h2, List.map_cons, List.sum_cons]
    by_cases hc : l.credit = 0
    · simp [ledgerLineToAccount, hc]
    · simp [ledgerLineToAccount, hc, h1 hc]

/-- Summation helper: the synthesized credit total equals the source credit
total (a line falling to the debit branch has credit zero by the branch
condition itself). -/
theorem sumCredits_map_ledgerLineToAccount (dcc : Option String) (lines : List LedgerLine) :
    sumCredits (lines.map (ledgerLineToAccount dcc)) = (lines.map LedgerLine.credit).sum := by
  induction lines with
  | nil => rfl
  | cons l ls ih =>
    rw [List.map_cons, sumCredits_cons, ih, List.map_cons, List.sum_cons]
    by_cases hc : l.credit = 0
    · simp [ledgerLineToAccount, hc]
    · simp [ledgerLineToAccount, hc]

/-- C1: for a reconstructed ledger entry whose lines each carry exactly one
non-zero side and whose debit total equals its credit total, the
journal-entry synthesizer emits exactly one posting line per ledger line
(no balancing correction line), each posting line carries exactly the
non-zero side of its source line, and the debit total of the synthesized
accounts equals their credit total. -/
theorem ledger_entry_as_je_balanced (dcc : Option String) (entry : GLEntry)
    (hone : ∀ l ∈ entry.lines,
      (l.credit ≠ 0 ∧ l.debit = 0) ∨ (l.credit = 0 ∧ l.debit ≠ 0))
    (hbal : (entry.lines.map LedgerLine.debit).sum = (entry.lines.map LedgerLine.credit).sum) :
    (ledgerEntryAccounts dcc entry).length = entry.lines.length
    ∧ (∀ l ∈ entry.lines,
        (l.credit ≠ 0 → ledgerLineToAccount dcc l =
          { account := l.account, cost_center := dcc,
            credit_in_account_currency := some l.credit, debit_in_account_currency := none,
            party_type := none, party := none, reference_type := none, reference_name := none })
        ∧ (l.credit = 0 → ledgerLineToAccount dcc l =
          { account := l.account, cost_center := dcc,
            credit_in_account_currency := none, debit_in_account_currency := some l.debit,
            party_type := none, party := none, reference_type := none, reference_name := none }))
    ∧ sumDebits (ledgerEntryAccounts dcc entry) = sumCredits (ledgerEntryAccounts dcc entry) := by
  refine ⟨List.length_map _ _, ?_, ?_⟩
  · intro l _
    constructor
    · intro hcr
      simp [ledgerLineToAccount, hcr]
    · intro hcr
      simp [ledgerLineToAccount, hcr]
  · have h : ∀ l ∈ entry.lines, l.credit ≠ 0 → l.debit = 0 := by
      intro l hl hcr
      rcases hone l hl with ⟨_, hd⟩ | ⟨hc, _⟩
      · exact hd
      · exact absurd hc hcr
    unfold ledgerEntryAccounts
    rw [sumDebits_map_ledgerLineToAccount dcc entry.lines h,
      sumCredits_map_ledgerLineToAccount dcc entry.lines, hbal]

/-- Address creation only ever appends to the Address table. -/
theorem create_address_append (n t : String) (a : QBAddress) (db : List AddressDoc) :
    ∃ ext, create_address n t a db = db ++ ext := by
  by_cases h : db.any (fun doc => doc.quickbooks_id == some a.addrId)
  · exact ⟨[], by simp [create_address, h]⟩
  · exact ⟨[{ quickbooks_id := none, quickbooks_address_id := some a.addrId, address_title := n, address_type := t, address_line1 := a.line1, city := a.city }], by simp [create_address, h]⟩

/-- The address block of _save_customer and _save_vendor only ever appends
to the Address table. -/
theorem customer_addresses_append (n : String) (b s : Option QBAddress)
    (adb : List AddressDoc) :
    ∃ ext, customer_addresses n b s adb = adb ++ ext := by
  unfold customer_addresses
  cases s with
  | none =>
    cases b with
    | none => exact ⟨[], by simp⟩
    | some a1 => exact create_address_append n "Billing" a1 adb
  | some a2 =>
    cases b with
    | none => exact create_address_append n "Shipping" a2 adb
    | some a1 =>
      obtain ⟨e1, he1⟩ := create_address_append n "Billing" a1 adb
      obtain ⟨e2, he2⟩ := create_address_append n "Shipping" a2 (adb ++ e1)
      refine ⟨e1 ++ e2, ?_⟩
      show create_address n "Shipping" a2 (create_address n "Billing" a1 adb)
        = adb ++ (e1 ++ e2)
      rw [he1, he2, List.append_assoc]

/-- C7: a second full migration run inserts nothing new.  For every
creation path: when the document the path writes is already present, the
path is the identity on the database (so replaying run 1 against the
populated target changes nothing); one run only ever appends documents,
so a match established earlier keeps holding; and after a run the gate
key does match, because each insert writes the key its gate reads.  The
Customer and Supplier paths return both tables unchanged, so on a second
run _create_address is never invoked: the address table is protected by
the parent gate (the address gate itself reads quickbooks_id while the
insert writes quickbooks_address_id, but that gate is only reachable
inside a first-time parent insert).  Items whose Type is neither Service
nor Inventory are never inserted at all, so that path is a no-op on
every run. -/
theorem migration_second_run_inserts_nothing (company : String)
    (a : QBAccount) (acdb : List AccountDoc)
    (tax_rate_id : String) (tdb : List AccountDoc)
    (c : QBCustomer) (cdb : List CustomerDoc) (cadb : List AddressDoc)
    (v : QBVendor) (sdb : List SupplierDoc) (vadb : List AddressDoc)
    (item_id item_type : String) (idb : List ItemDoc)
    (si_qbid : String) (sidb : List SalesInvoiceDoc)
    (pi_qbid : String) (pidb : List PurchaseInvoiceDoc)
    (je_qbid : String) (accs : List JEAccountLine) (pdate : String)
    (jdb : List JEDoc) :
    (account_exists company a.acctId acdb = true → save_account company a acdb = acdb)
    ∧ (∃ ext, save_account company a acdb = acdb ++ ext
        ∧ account_exists company a.acctId (save_account company a acdb) = true)
    ∧ (account_exists company ("TaxRate - " ++ tax_rate_id) tdb = true →
        save_tax_rate company tax_rate_id tdb = tdb)
    ∧ (∃ ext, save_tax_rate company tax_rate_id tdb = tdb ++ ext
        ∧ account_exists company ("TaxRate - " ++ tax_rate_id)
            (save_tax_rate company tax_rate_id tdb) = true)
    ∧ (customer_exists company c.custId cdb = true →
        save_customer company c cdb cadb = (cdb, cadb))
    ∧ (∃ cext aext, save_customer company c cdb cadb = (cdb ++ cext, cadb ++ aext)
        ∧ customer_exists company c.custId (save_customer company c cdb cadb).1 = true)
    ∧ (supplier_exists company v.vendId sdb = true →
        save_vendor company v sdb vadb = (sdb, vadb))
    ∧ (∃ sext aext, save_vendor company v sdb vadb = (sdb ++ sext, vadb ++ aext)
        ∧ supplier_exists company v.vendId (save_vendor company v sdb vadb).1 = true)
    ∧ (item_exists company item_id idb = true →
        save_item company item_id item_type idb = idb)
    ∧ (∃ ext, save_item company item_id item_type idb = idb ++ ext)
    ∧ (¬(item_type = "Service" ∨ item_type = "Inventory") →
        save_item company item_id item_type idb = idb)
    ∧ (sales_invoice_exists company si_qbid sidb = true →
        save_sales_invoice_doc company si_qbid sidb = sidb)
    ∧ (∃ ext, save_sales_invoice_doc company si_qbid sidb = sidb ++ ext
        ∧ sales_invoice_exists company si_qbid
            (save_sales_invoice_doc company si_qbid sidb) = true)
    ∧ (purchase_invoice_exists company pi_qbid pidb = true →
        save_purchase_invoice_doc company pi_qbid pidb = pidb)
    ∧ (∃ ext, save_purchase_invoice_doc company pi_qbid pidb = pidb ++ ext
        ∧ purchase_invoice_exists company pi_qbid
            (save_purchase_invoice_doc company pi_qbid pidb) = true)
    ∧ (jdb.any (fun je => je.quickbooks_id == je_qbid) = true →
        save_journal_entry_doc je_qbid accs pdate jdb = jdb)
    ∧ (∃ ext, save_journal_entry_doc je_qbid accs pdate jdb = jdb ++ ext
        ∧ (save_journal_entry_doc je_qbid accs pdate jdb).any
            (fun je => je.quickbooks_id == je_qbid) = true) := by
  refine ⟨?_, ?_, ?_, ?_, ?_, ?_, ?_, ?_, ?_, ?_, ?_, ?_, ?_, ?_, ?_, ?_, ?_⟩
  · intro h
    simp [save_account, h]
  · by_cases h : account_exists company a.acctId acdb
    · exact ⟨[], by simp [save_account, h], by simp [save_account, h]⟩
    · by_cases hg : a.is_group
      · have hs : save_account company a acdb = acdb ++ [{ quickbooks_id := "Group - " ++ a.acctId, company := company, is_group := true }, { quickbooks_id := a.acctId, company := company, is_group := false }] := by
          simp [save_account, h, hg]
        refine ⟨_, hs, ?_⟩
        rw [hs]
        simp [account_exists, List.any_append]
      · have hs : save_account company a acdb = acdb ++ [{ quickbooks_id := a.acctId, company := company, is_group := false }] := by
          simp [save_account, h, hg]
        refine ⟨_, hs, ?_⟩
        rw [hs]
        simp [account_exists, List.any_append]
  · intro h
    simp [save_tax_rate, h]
  · by_cases h : account_exists company ("TaxRate - " ++ tax_rate_id) tdb
    · exact ⟨[], by simp [save_tax_rate, h], by simp [save_tax_rate, h]⟩
    · have hs : save_tax_rate company tax_rate_id tdb = tdb ++ [{ quickbooks_id := "TaxRate - " ++ tax_rate_id, company := company, is_group := false }] := by
        simp [save_tax_rate, h]
      refine ⟨_, hs, ?_⟩
      rw [hs]
      simp [account_exists, List.any_append]
  · intro h
    simp [save_customer, h]
  · by_cases h : customer_exists company c.custId cdb
    · exact ⟨[], [], by simp [save_customer, h], by simp [save_customer, h]⟩
    · obtain ⟨aext, haext⟩ :=
        customer_addresses_append c.displayName c.billAddr c.shipAddr cadb
      have hs : save_customer company c cdb cadb = (cdb ++ [{ quickbooks_id := c.custId, company := company, customer_name := c.displayName }], cadb ++ aext) := by
        simp [save_customer, h, haext]
      refine ⟨_, aext, hs, ?_⟩
      rw [hs]
      simp [customer_exists, List.any_append]
  · intro h
    simp [save_vendor, h]
  · by_cases h : supplier_exists company v.vendId sdb
    · exact ⟨[], [], by simp [save_vendor, h], by simp [save_vendor, h]⟩
    · obtain ⟨aext, haext⟩ :=
        customer_addresses_append v.displayName v.billAddr v.shipAddr vadb
      have hs : save_vendor company v sdb vadb = (sdb ++ [{ quickbooks_id := v.vendId, company := company, supplier_name := v.displayName }], vadb ++ aext) := by
        simp [save_vendor, h, haext]
      refine ⟨_, aext, hs, ?_⟩
      rw [hs]
      simp [supplier_exists, List.any_append]
  · intro h
    simp [save_item, h]
  · by_cases h : item_exists company item_id idb
    · exact ⟨[], by simp [save_item, h]⟩
    · by_cases ht : (item_type == "Service" || item_type == "Inventory") = true
      · exact ⟨[{ quickbooks_id := item_id, company := company }], by simp [save_item, h, ht]⟩
      · refine ⟨[], ?_⟩
        unfold save_item
        rw [if_neg h, if_neg ht, List.append_nil]
  · intro h
    have ht : (item_type == "Service" || item_type == "Inventory") = false := by
      simp only [Bool.or_eq_false_iff, beq_eq_false_iff_ne, ne_eq]
      exact ⟨fun hs => h (Or.inl hs), fun hi => h (Or.inr hi)⟩
    by_cases hx : item_exists company item_id idb
    · simp [save_item, hx]
    · simp [save_item, hx, ht]
  · intro h
    simp [save_sales_invoice_doc, h]
  · by_cases h : sales_invoice_exists company si_qbid sidb
    · exact ⟨[], by simp [save_sales_invoice_doc, h], by simp [save_sales_invoice_doc, h]⟩
    · have hs : save_sales_invoice_doc company si_qbid sidb = sidb ++ [{ quickbooks_id := si_qbid, company := company }] := by
        simp [save_sales_invoice_doc, h]
      refine ⟨_, hs, ?_⟩
      rw [hs]
      simp [sales_invoice_exists, List.any_append]
  · intro h
    simp [save_purchase_invoice_doc, h]
  · by_cases h : purchase_invoice_exists company pi_qbid pidb
    · exact ⟨[], by simp [save_purchase_invoice_doc, h],
        by simp [save_purchase_invoice_doc, h]⟩
    · have hs : save_purchase_invoice_doc company pi_qbid pidb = pidb ++ [{ quickbooks_id := pi_qbid, company := company }] := by
        simp [save_purchase_invoice_doc, h]
      refine ⟨_, hs, ?_⟩
      rw [hs]
      simp [purchase_invoice_exists, List.any_append]
  · intro h
    simp [save_journal_entry_doc, h]
  · by_cases h : jdb.any (fun je => je.quickbooks_id == je_qbid)
    · exact ⟨[], by simp [save_journal_entry_doc, h], by simp [save_journal_entry_doc, h]⟩
    · have hs : save_journal_entry_doc je_qbid accs pdate jdb = jdb ++ [{ quickbooks_id := je_qbid, accounts := accs, posting_date := pdate }] := by
        simp [save_journal_entry_doc, h]
      refine ⟨_, hs, ?_⟩
      rw [hs]
      simp [List.any_append]

/-- Witness for migration_second_run_inserts_nothing: every gated path
replayed against the table its first run populated is a no-op, and a
non-stock item type inserts nothing on any run. -/
theorem migration_second_run_inserts_nothing_witness :
    account_exists "TestCo" wAccount.acctId [wAccountDoc] = true
    ∧ save_account "TestCo" wAccount [wAccountDoc] = [wAccountDoc]
    ∧ account_exists "TestCo" ("TaxRate - " ++ "3") [wTaxRateDoc] = true
    ∧ save_tax_rate "TestCo" "3" [wTaxRateDoc] = [wTaxRateDoc]
    ∧ customer_exists "TestCo" wCustomer.custId [wCustomerDoc] = true
    ∧ save_customer "TestCo" wCustomer [wCustomerDoc] [] = ([wCustomerDoc], [])
    ∧ supplier_exists "TestCo" wVendor.vendId [wSupplierDoc] = true
    ∧ save_vendor "TestCo" wVendor [wSupplierDoc] [] = ([wSupplierDoc], [])
    ∧ item_exists "TestCo" "9" [wItemDoc] = true
    ∧ save_item "TestCo" "9" "Service" [wItemDoc] = [wItemDoc]
    ∧ ¬(("Bundle" : String) = "Service" ∨ ("Bundle" : String) = "Inventory")
    ∧ save_item "TestCo" "77" "Bundle" [] = []
    ∧ sales_invoice_exists "TestCo" "Invoice - 8" [wSalesInvoiceDoc] = true
    ∧ save_sales_invoice_doc "TestCo" "Invoice - 8" [wSalesInvoiceDoc]
        = [wSalesInvoiceDoc]
    ∧ purchase_invoice_exists "TestCo" "Bill - 4" [wPurchaseInvoiceDoc] = true
    ∧ save_purchase_invoice_doc "TestCo" "Bill - 4" [wPurchaseInvoiceDoc]
        = [wPurchaseInvoiceDoc]
    ∧ [wJournalEntryDoc].any (fun je => je.quickbooks_id == "Journal Entry - 2") = true
    ∧ save_journal_entry_doc "Journal Entry - 2" [] "2020-01-01" [wJournalEntryDoc]
        = [wJournalEntryDoc] := by
  obtain ⟨a1, _, t1, _, c1, _, v1, _, i1, _, _, s1, _, p1, _, j1, _⟩ :=
    migration_second_run_inserts_nothing "TestCo" wAccount [wAccountDoc]
      "3" [wTaxRateDoc] wCustomer [wCustomerDoc] [] wVendor [wSupplierDoc] []
      "9" "Service" [wItemDoc] "Invoice - 8" [wSalesInvoiceDoc]
      "Bill - 4" [wPurchaseInvoiceDoc] "Journal Entry - 2" [] "2020-01-01"
      [wJournalEntryDoc]
  obtain ⟨_, _, _, _, _, _, _, _, _, _, i4, _, _, _, _, _, _⟩ :=
    migration_second_run_inserts_nothing "TestCo" wAccount [wAccountDoc]
      "3" [wTaxRateDoc] wCustomer [wCustomerDoc] [] wVendor [wSupplierDoc] []
      "77" "Bundle" [] "Invoice - 8" [wSalesInvoiceDoc]
      "Bill - 4" [wPurchaseInvoiceDoc] "Journal Entry - 2" [] "2020-01-01"
      [wJournalEntryDoc]
  refine ⟨by decide, a1 (by decide), by decide, t1 (by decide), by decide,
    c1 (by decide), by decide, v1 (by decide), by decide, i1 (by decide),
    by decide, i4 (by decide), by decide, s1 (by decide), by decide,
    p1 (by decide), by decide, j1 (by decide)⟩

/-- Margin updates on the last item commute with quantity negation of the
whole list. -/
theorem updateLast_margin_map_neg (m : Int) (l : List SIItem) :
    updateLast (fun it => { it with margin_rate_or_amount := some m }) (l.map negateQty)
      = (updateLast (fun it => { it with margin_rate_or_amount := some m }) l).map
          negateQty := by
  induction l with
  | nil => rfl
  | cons a as ih =>
    cases as with
    | nil => rfl
    | cons b bs =>
      simp only [List.map_cons, updateLast] at ih ⊢
      exact congrArg _ ih

/-- Accumulator invariant of _get_si_items: running the loop with
is_return set negates the quantity of every item row the loop emits. -/
theorem get_si_items_aux_return (inv : QBInvoice) (ls : List InvoiceLine) :
    ∀ acc1 acc2 : List SIItem, acc2 = acc1.map negateQty →
      get_si_items_aux inv true ls acc2
        = (get_si_items_aux inv false ls acc1).map (List.map negateQty) := by
  induction ls with
  | nil =>
    intro acc1 acc2 h
    subst h
    simp [get_si_items_aux]
  | cons l rest ih =>
    intro acc1 acc2 h
    subst h
    cases l with
    | salesItem itemRef itemRefName qty unitPrice taxCode amount descr =>
      simp only [get_si_items_aux, if_true, if_false]
      exact ih _ _ (by simp [negateQty])
    | descriptionOnly m =>
      cases acc1 with
      | nil => simp [get_si_items_aux]
      | cons a as =>
        simp only [get_si_items_aux, List.map_cons]
        exact ih _ _ (by simpa using updateLast_margin_map_neg m (a :: as))
    | otherDetail dt =>
      simp only [get_si_items_aux]
      exact ih _ _ rfl

/-- C8: an Invoice with a linked StatementCharge or ReimburseCharge is
routed to journal-entry synthesis and no Sales Invoice document is built
for it; otherwise a Sales Invoice document is built with the item rows of
_get_si_items; and building the rows as a return (the CreditMemo and
RefundReceipt mappings) negates the quantity of every item row. -/
theorem save_invoice_routing (inv : QBInvoice) :
    ((∃ l ∈ inv.linkedTxns,
        l.txnType = "StatementCharge" ∨ l.txnType = "ReimburseCharge") →
      save_invoice inv = SaveInvoiceResult.journalEntry ("Invoice - " ++ inv.invId))
    ∧ ((∀ l ∈ inv.linkedTxns,
        ¬(l.txnType = "StatementCharge" ∨ l.txnType = "ReimburseCharge")) →
      save_invoice inv = SaveInvoiceResult.salesInvoice ("Invoice - " ++ inv.invId)
        (get_si_items inv false) false false)
    ∧ (∀ items, get_si_items inv false = some items →
        get_si_items inv true = some (items.map negateQty)) := by
  refine ⟨?_, ?_, ?_⟩
  · rintro ⟨l, hl, hty⟩
    unfold save_invoice
    rw [if_pos]
    refine List.any_eq_true.mpr ⟨l, hl, ?_⟩
    rcases hty with h | h <;> simp [h]
  · intro hall
    unfold save_invoice
    rw [if_neg]
    intro hany
    obtain ⟨l, hl, hty⟩ := List.any_eq_true.mp hany
    simp only [Bool.or_eq_true, beq_iff_eq] at hty
    exact hall l hl hty
  · intro items h
    have hrel := get_si_items_aux_return inv inv.lines [] [] rfl
    unfold get_si_items at h ⊢
    rw [h] at hrel
    simpa using hrel

/-- Witness for save_invoice_routing: a StatementCharge-linked invoice goes
to journal-entry synthesis; an ordinary invoice builds the item list, and
the return variant negates its quantity. -/
theorem save_invoice_routing_witness :
    (∃ l ∈ statementChargeInvoice.linkedTxns,
        l.txnType = "StatementCharge" ∨ l.txnType = "ReimburseCharge")
    ∧ save_invoice statementChargeInvoice
        = SaveInvoiceResult.journalEntry ("Invoice - " ++ statementChargeInvoice.invId)
    ∧ (∀ l ∈ plainInvoice.linkedTxns,
        ¬(l.txnType = "StatementCharge" ∨ l.txnType = "ReimburseCharge"))
    ∧ save_invoice plainInvoice
        = SaveInvoiceResult.salesInvoice ("Invoice - " ++ plainInvoice.invId)
          (get_si_items plainInvoice false) false false
    ∧ get_si_items plainInvoice false = some [plainInvoiceItem]
    ∧ get_si_items plainInvoice true = some ([plainInvoiceItem].map negateQty) :=
  ⟨by decide,
    (save_invoice_routing statementChargeInvoice).1 (by decide),
    by decide,
    (save_invoice_routing plainInvoice).2.1 (by decide),
    rfl,
    (save_invoice_routing plainInvoice).2.2 [plainInvoiceItem] rfl⟩

/-- C10: a Payment without DepositToAccountRef makes _save_payment return
before doing anything: no Journal Entry document is created, the migrator
state is untouched and nothing is logged. -/
theorem save_payment_without_deposit_noop (dcc : Option String)
    (nameById : String → String) (p : QBPayment) (st : MigState)
    (h : p.depositToAccountRef = none) :
    save_payment dcc nameById p st = st := by
  unfold save_payment
  rw [h]

/-- Witness for save_payment_without_deposit_noop on a concrete payment and
a state already holding the linked sales invoice. -/
theorem save_payment_without_deposit_noop_witness :
    undepositedPayment.depositToAccountRef = none
    ∧ save_payment (some "Main - QB") (fun s => s) undepositedPayment
        examplePaymentState = examplePaymentState :=
  ⟨rfl, save_payment_without_deposit_noop _ _ _ _ rfl⟩

/-- Witness for ledger_entry_as_je_balanced on a concrete two-line advance
payment entry. -/
theorem ledger_entry_as_je_balanced_witness :
    (∀ l ∈ advancePaymentExample.lines,
      (l.credit ≠ 0 ∧ l.debit = 0) ∨ (l.credit = 0 ∧ l.debit ≠ 0))
    ∧ (advancePaymentExample.lines.map LedgerLine.debit).sum
        = (advancePaymentExample.lines.map LedgerLine.credit).sum
    ∧ sumDebits (ledgerEntryAccounts (some "Main - QB") advancePaymentExample)
        = sumCredits (ledgerEntryAccounts (some "Main - QB") advancePaymentExample) :=
  ⟨by decide, by norm_num [advancePaymentExample],
    (ledger_entry_as_je_balanced (some "Main - QB") advancePaymentExample
      (by decide) (by norm_num [advancePaymentExample])).2.2⟩

end QBConnect
